import Mathlib

/-!
Verification development for the ospd-openvas daemon
(`ospd_openvas/daemon.py`): a shallow embedding of the preference
compiler, the feed-staleness check, the result translator and the scan
orchestrator loop, with theorems about their behaviour.

Python-level conventions used throughout the embedding:
* Python dicts become insertion-ordered association lists
  (`List (String × α)`); keys are unique in every dict the daemon builds.
* `None` becomes `Option.none`; "falsy" strings are the empty string.
* Raised exceptions become `Except.error`.
-/

namespace OspdOpenvas

/-!
String primitives. The Lean standard library versions (`String.trim`,
`String.splitOn`, `String.replace`, `String.toInt?`) are defined by
well-founded recursion over byte positions and do not reduce inside the
kernel, so the Python string operations the daemon uses are modelled here
structurally over the character list of a `String`. -/

/-- The whitespace set of Python `str.strip()` with no argument. -/
def isPySpace (c : Char) : Bool :=
  c = ' ' || c = '\t' || c = '\n' || c = '\r' || c = '\x0b' || c = '\x0c'

/-- Python `str.strip()` on a char list. -/
def stripChars (l : List Char) : List Char :=
  ((l.dropWhile isPySpace).reverse.dropWhile isPySpace).reverse

/-- Python `str.strip()`. -/
def pyStrip (s : String) : String := ⟨stripChars s.data⟩

/-- Python string falsiness: only the empty string is falsy. -/
def strEmpty (s : String) : Bool := s.data.isEmpty

/-- If `p` is a prefix of `l`, the suffix of `l` after it. -/
def dropPre : List Char → List Char → Option (List Char)
  | [], l => some l
  | _ :: _, [] => none
  | p :: ps, c :: cs => if p = c then dropPre ps cs else none

/-- Python `str.split(sep)` for a non-empty separator, on char lists.
Structural on explicit fuel; every recursive call consumes at least one
character, so fuel `length + 1` (what all callers pass) never runs out. -/
def splitCharsFuel (sep : List Char) : Nat → List Char → List (List Char)
  | 0, l => [l]
  | _ + 1, [] => [[]]
  | fuel + 1, c :: cs =>
    match dropPre sep (c :: cs) with
    | some rest => [] :: splitCharsFuel sep fuel rest
    | none =>
      match splitCharsFuel sep fuel cs with
      | [] => [[c]]
      | h :: t => (c :: h) :: t

/-- Python `s.split(sep)` for a non-empty `sep`. -/
def pySplit (s sep : String) : List String :=
  if sep.data.isEmpty then [s]
  else (splitCharsFuel sep.data (s.data.length + 1) s.data).map String.mk

/-- Models the Python substring test `pat in s` (for a non-empty `pat`). -/
def hasSub (s pat : String) : Bool :=
  (pySplit s pat).length != 1

/-- Python `s.replace(pat, rep)` for a non-empty `pat`. -/
def pyReplace (s pat rep : String) : String :=
  if pat.data.isEmpty then s
  else ⟨List.intercalate rep.data (splitCharsFuel pat.data (s.data.length + 1) s.data)⟩

/-- Python `sep.join(xs)`. -/
def pyJoin (sep : String) (xs : List String) : String :=
  ⟨List.intercalate sep.data (xs.map String.data)⟩

/-- The value of a non-empty all-digit char list. -/
def digitsVal (l : List Char) : Option Nat :=
  match l with
  | [] => none
  | _ =>
    l.foldl
      (fun acc? c =>
        match acc? with
        | none => none
        | some acc => if c.isDigit then some (acc * 10 + (c.toNat - 48)) else none)
      (some 0)

/-- Models Python `int(s)` on a string: surrounding whitespace is stripped,
then an optionally signed decimal integer is parsed; `none` models a raised
`ValueError`. (Underscore digit grouping is not modelled; the daemon never
feeds such values.) -/
def pyInt (s : String) : Option Int :=
  match stripChars s.data with
  | '-' :: ds => (digitsVal ds).map fun n => -(n : Int)
  | '+' :: ds => (digitsVal ds).map fun n => (n : Int)
  | ds => (digitsVal ds).map fun n => (n : Int)

/-- Python `dict.get k` on an insertion-ordered association list. Dict keys
are unique, so the first match is the entry. -/
def dictGet {α : Type} (d : List (String × α)) (k : String) : Option α :=
  match d with
  | [] => none
  | (k₁, v) :: rest => if k₁ = k then some v else dictGet rest k

/-- Python `d[k] = v` on an insertion-ordered association list: overwrites
the value in place when the key exists, appends at the end when it is new. -/
def dictSet {α : Type} (d : List (String × α)) (k : String) (v : α) :
    List (String × α) :=
  match d with
  | [] => [(k, v)]
  | (k₁, v₁) :: rest =>
    if k₁ = k then (k, v) :: rest else (k₁, v₁) :: dictSet rest k v

/-- Truthiness of an optional string: `none` and the empty string are falsy. -/
def truthyOpt (o : Option String) : Bool :=
  match o with
  | some s => !strEmpty s
  | none => false

/-! ### Constants from daemon.py (lines 227-241) -/

def OID_SSH_AUTH : String := "1.3.6.1.4.1.25623.1.0.103591"
def OID_SMB_AUTH : String := "1.3.6.1.4.1.25623.1.0.90023"
def OID_ESXI_AUTH : String := "1.3.6.1.4.1.25623.1.0.105058"
def OID_SNMP_AUTH : String := "1.3.6.1.4.1.25623.1.0.105076"
def OID_PING_HOST : String := "1.3.6.1.4.1.25623.1.0.100315"

/-- `AliveTest` bit flags (daemon.py lines 234-241). -/
def ALIVE_TEST_TCP_ACK_SERVICE : Nat := 1
def ALIVE_TEST_ICMP : Nat := 2
def ALIVE_TEST_ARP : Nat := 4
def ALIVE_TEST_CONSIDER_ALIVE : Nat := 8
def ALIVE_TEST_TCP_SYN_SERVICE : Nat := 16

/-- `_from_bool_to_str` (daemon.py lines 244-247). -/
def from_bool_to_str (value : Int) : String :=
  if value = 1 then "yes" else "no"

/-! ### Alive-test preference compiler
`build_alive_test_opt_as_prefs` (daemon.py lines 1377-1479). -/

/-- The body of `build_alive_test_opt_as_prefs` after the `int()` parse of
the `alive_test` option (daemon.py lines 1397-1478). Adjacent Python string
literal concatenations are fused. The bit tests use `&&&` on `toNat`;
the value is range-checked to `[1, 31]` first, so it is non-negative
wherever bits are inspected. -/
def alive_test_prefs_of_int (alive_test : Int) : List String :=
  if alive_test < 1 ∨ alive_test > 31 then []
  else
    let a := alive_test.toNat
    let v1 :=
      if a &&& ALIVE_TEST_TCP_ACK_SERVICE ≠ 0 ∨
          a &&& ALIVE_TEST_TCP_SYN_SERVICE ≠ 0 then "yes" else "no"
    let v2 :=
      if a &&& ALIVE_TEST_TCP_SYN_SERVICE ≠ 0 ∧
          a &&& ALIVE_TEST_TCP_ACK_SERVICE ≠ 0 then "yes" else "no"
    let v7 :=
      if a &&& ALIVE_TEST_TCP_SYN_SERVICE ≠ 0 ∧
          ¬a &&& ALIVE_TEST_TCP_ACK_SERVICE ≠ 0 then "yes" else "no"
    let v3 := if a &&& ALIVE_TEST_ICMP ≠ 0 then "yes" else "no"
    let v4 := if a &&& ALIVE_TEST_ARP ≠ 0 then "yes" else "no"
    let v5 := if a &&& ALIVE_TEST_CONSIDER_ALIVE ≠ 0 then "no" else "yes"
    [OID_PING_HOST ++ ":1:checkbox:" ++ "Do a TCP ping|||" ++ v1,
     OID_PING_HOST ++ ":2:checkbox:" ++ "TCP ping tries also TCP-SYN ping|||" ++ v2,
     OID_PING_HOST ++ ":7:checkbox:" ++ "TCP ping tries only TCP-SYN ping|||" ++ v7,
     OID_PING_HOST ++ ":3:checkbox:" ++ "Do an ICMP ping|||" ++ v3,
     OID_PING_HOST ++ ":4:checkbox:" ++ "Use ARP|||" ++ v4,
     OID_PING_HOST ++ ":5:checkbox:" ++
       "Mark unrechable Hosts as dead (not scanning)|||" ++ v5] ++
    (if alive_test = (ALIVE_TEST_CONSIDER_ALIVE : Int) then
       [OID_PING_HOST ++ ":1:checkbox:" ++ "Do a TCP ping|||yes"]
     else [])

/-- `build_alive_test_opt_as_prefs` (daemon.py lines 1377-1479): reads the
`alive_test` entry of the target options dict; the whole guard
`target_options and target_options.get("alive_test")` must be truthy,
a `ValueError` from `int()` yields no lines. -/
def build_alive_test_opt_as_prefs (target_options : List (String × String)) :
    List String :=
  if target_options.isEmpty then []
  else
    match dictGet target_options "alive_test" with
    | none => []
    | some s =>
      if strEmpty s then []
      else
        match pyInt s with
        | none => []
        | some n => alive_test_prefs_of_int n

/-! ### Credential preference compiler
`build_credentials_as_prefs` (daemon.py lines 1262-1375). -/

/-- One credential entry: the sub-field dict of one service. Every field the
code reads with `cred_params.get(key, "")`; a missing key is `none`. The
Python key `private` is named `privatekey` here (`private` is reserved in
Lean). -/
structure CredParams where
  type : Option String := none
  username : Option String := none
  password : Option String := none
  port : Option String := none
  privatekey : Option String := none
  community : Option String := none
  auth_algorithm : Option String := none
  privacy_password : Option String := none
  privacy_algorithm : Option String := none
deriving DecidableEq

/-- `cred_params.get(key, "")`: a missing sub-field defaults to the empty
string. -/
def pget (o : Option String) : String := o.getD ""

/-- The preference lines one iteration of the `build_credentials_as_prefs`
loop appends for entry `(service, cred_params)` (daemon.py lines 1271-1373).
The four service tests are independent `if`s in the source; adjacent Python
string literal concatenations are fused. -/
def service_cred_lines (cred_params : CredParams) (service : String) :
    List String :=
  let cred_type := pget cred_params.type
  let username := pget cred_params.username
  let password := pget cred_params.password
  (if service = "ssh" then
    let port := pget cred_params.port
    ["auth_port_ssh|||" ++ port,
     OID_SSH_AUTH ++ ":1:" ++ "entry:SSH login " ++ "name:|||" ++ username] ++
    (if cred_type = "up" then
      [OID_SSH_AUTH ++ ":3:" ++ "password:SSH password " ++ "(unsafe!):|||" ++
        password]
    else
      [OID_SSH_AUTH ++ ":2:" ++ "password:SSH key passphrase:|||" ++ password,
       OID_SSH_AUTH ++ ":4:" ++ "file:SSH private key:|||" ++
         pget cred_params.privatekey])
   else []) ++
  (if service = "smb" then
    [OID_SMB_AUTH ++ ":1:entry" ++ ":SMB login:|||" ++ username,
     OID_SMB_AUTH ++ ":2:" ++ "password:SMB password:|||" ++ password]
   else []) ++
  (if service = "esxi" then
    [OID_ESXI_AUTH ++ ":1:entry:" ++ "ESXi login name:|||" ++ username,
     OID_ESXI_AUTH ++ ":2:" ++ "password:ESXi login password:|||" ++ password]
   else []) ++
  (if service = "snmp" then
    let community := pget cred_params.community
    let auth_algorithm := pget cred_params.auth_algorithm
    let privacy_password := pget cred_params.privacy_password
    let privacy_algorithm := pget cred_params.privacy_algorithm
    [OID_SNMP_AUTH ++ ":1:" ++ "password:SNMP Community:|||" ++ community,
     OID_SNMP_AUTH ++ ":2:" ++ "entry:SNMPv3 Username:|||" ++ username,
     OID_SNMP_AUTH ++ ":3:" ++ "password:SNMPv3 Password:|||" ++ password,
     OID_SNMP_AUTH ++ ":4:" ++ "radio:SNMPv3 Authentication Algorithm:|||" ++
       auth_algorithm,
     OID_SNMP_AUTH ++ ":5:" ++ "password:SNMPv3 Privacy Password:|||" ++
       privacy_password,
     OID_SNMP_AUTH ++ ":6:" ++ "radio:SNMPv3 Privacy Algorithm:|||" ++
       privacy_algorithm]
   else [])

/-- `build_credentials_as_prefs` (daemon.py lines 1262-1375): iterates
`credentials.items()` in insertion order; `cred_params` is re-fetched from
the dict via `credentials.get(service)` as in the source. -/
def build_credentials_as_prefs (credentials : List (String × CredParams)) :
    List String :=
  (credentials.map fun credential =>
    service_cred_lines ((dictGet credentials credential.1).getD {}) credential.1).flatten

/-- The credential step of `exec_scan` (daemon.py lines 1576-1587): the
"Malformed credential" scan error is raised (and the launch cancelled via
`do_not_launch`) exactly when the credentials dict is truthy but its
expansion produced no preference line. -/
def malformed_credential_signaled (credentials : List (String × CredParams)) :
    Bool :=
  !credentials.isEmpty && (build_credentials_as_prefs credentials).isEmpty

/-- A service name that contributes preference lines in
`build_credentials_as_prefs`. -/
def recognized_service (service : String) : Bool :=
  service = "ssh" || service = "smb" || service = "esxi" || service = "snmp"

/-! ### Feed synchronizer
`feed_is_outdated` (daemon.py lines 343-373) and the first step of
`check_feed` (lines 375-384). -/

/-- The `PLUGIN_SET` parsing loop of `feed_is_outdated` (daemon.py lines
364-370): `date` starts as the integer `0` (modelled `none`) and is replaced
by the cleaned right-hand side of every line mentioning `PLUGIN_SET`, the
last one winning. A `PLUGIN_SET` line without the separator `" = "` raises
`IndexError` (modelled `Except.error`). Lines keep their trailing newline,
as Python file iteration yields them. -/
def plugin_set_date (lines : List String) : Except Unit (Option String) :=
  lines.foldlM
    (fun date line =>
      if hasSub line "PLUGIN_SET" then
        match (pySplit line " = ").drop 1 with
        | [] => .error ()
        | d :: _ => .ok (some (pyReplace (pyReplace d ";" "") "\"" ""))
      else .ok date)
    none

/-- Models Python `int(x)` where `x` is either the initial integer `0`
(`none`) or the parsed marker string. -/
def date_int (date : Option String) : Except Unit Int :=
  match date with
  | none => .ok 0
  | some ds =>
    match pyInt ds with
    | some v => .ok v
    | none => .error ()

/-- `feed_is_outdated` (daemon.py lines 343-373). Environment inputs:
`plugins_folder` is the configured plugin path (falsy raises
`OspdOpenvasError`, modelled `Except.error`); `feed_file = none` models a
missing `plugin_feed_info.inc` (the function returns `None`), `some lines`
its content. The final comparison evaluates `int(current_feed)` before
`int(date)`, as Python does. -/
def feed_is_outdated (plugins_folder : Option String)
    (feed_file : Option (List String)) (current_feed : String) :
    Except Unit (Option Bool) :=
  match plugins_folder with
  | none => .error ()
  | some pf =>
    if strEmpty pf then .error ()
    else
      match feed_file with
      | none => .ok none
      | some lines => do
        let date ← plugin_set_date lines
        let cf ←
          match pyInt current_feed with
          | some v => Except.ok v
          | none => Except.error ()
        let d ← date_int date
        .ok (some (decide (cf < d) || decide (d = 0)))

/-- The first step of `check_feed` (daemon.py lines 380-384): the
process-wide `pending_feed` flag is set when the cached feed version is
truthy and `feed_is_outdated` returned `None` (marker file missing). The
remainder of `check_feed` (catalog reload) is outside this step. -/
def check_feed_sets_pending (plugins_folder : Option String)
    (feed_file : Option (List String)) (current_feed : String) :
    Except Unit Bool :=
  if strEmpty current_feed then .ok false
  else do
    let r ← feed_is_outdated plugins_folder feed_file current_feed
    .ok r.isNone

/-! ### VT selection and parameter processing
`get_vts_in_groups`, `get_vt_param_type`, `get_vt_param_name`,
`check_param_type`, `process_vts` (daemon.py lines 1138-1260). -/

/-- Declared metadata of one VT parameter (`vt_params\x5bid\x5d`):
its `type` and `name` fields. -/
structure VtParamMeta where
  type : String
  name : String
deriving DecidableEq

/-- The slice of one VT record that `process_vts` and `get_vts_in_groups`
consult: declared parameters and `custom.family`. -/
structure VtMeta where
  vt_params : List (String × VtParamMeta) := []
  family : Option String := none
deriving DecidableEq

/-- The OIDs of `temp_vts_dict` whose `custom.family` equals `value`, in
dict order: the `families` index built by `get_vts_in_groups`. -/
def family_oids (temp_vts_dict : List (String × VtMeta)) (value : String) :
    List String :=
  (temp_vts_dict.filter fun p => p.2.family = some value).map (·.1)

/-- `get_vts_in_groups` (daemon.py lines 1138-1162): each filter is split
on `=` into exactly key and value (any other arity raises `ValueError`,
modelled `Except.error`); only `family` keys with a matching family
contribute, in filter order. -/
def get_vts_in_groups (temp_vts_dict : List (String × VtMeta))
    (filters : List String) : Except Unit (List String) :=
  filters.foldlM
    (fun acc elem =>
      match pySplit elem "=" with
      | [key, value] =>
        .ok (if key = "family" ∧ (family_oids temp_vts_dict value) ≠ [] then
              acc ++ family_oids temp_vts_dict value
            else acc)
      | _ => .error ())
    []

/-- `get_vt_param_type` (daemon.py lines 1164-1170). -/
def get_vt_param_type (temp_vts_dict : List (String × VtMeta)) (vtid : String)
    (vt_param_id : String) : Option String :=
  match dictGet temp_vts_dict vtid with
  | none => none
  | some m =>
    match dictGet m.vt_params vt_param_id with
    | some pm => some pm.type
    | none => none

/-- `get_vt_param_name` (daemon.py lines 1172-1178). -/
def get_vt_param_name (temp_vts_dict : List (String × VtMeta)) (vtid : String)
    (vt_param_id : String) : Option String :=
  match dictGet temp_vts_dict vtid with
  | none => none
  | some m =>
    match dictGet m.vt_params vt_param_id with
    | some pm => some pm.name
    | none => none

/-- Models the validation `base64.b64decode` performs with default
arguments: characters outside the base64 alphabet (including `=`) are
discarded, then the remaining length must be a multiple of four. -/
def py_b64_valid (s : String) : Bool :=
  (s.data.filter fun c =>
    c.isAlphanum || c = '+' || c = '/' || c = '=').length % 4 = 0

/-- `check_param_type` (daemon.py lines 1180-1209): `none` means the value
matches the declared type, `some 1` that it does not. -/
def check_param_type (vt_param_value : String) (param_type : String) :
    Option Nat :=
  if param_type = "entry" ∨ param_type = "password" ∨ param_type = "radio" ∨
      param_type = "sshlogin" then none
  else if param_type = "checkbox" ∧
      (vt_param_value = "0" ∨ vt_param_value = "1") then none
  else if param_type = "file" then
    if py_b64_valid vt_param_value then none else some 1
  else if param_type = "integer" then
    if (pyInt vt_param_value).isSome then none else some 1
  else some 1

/-- One iteration of the inner parameter loop of `process_vts` (daemon.py
lines 1227-1258), threading the shared `vts_params` dict: a parameter with
missing/falsy declared type or name, or whose value fails
`check_param_type` against its effective type, is skipped; parameter id
`"0"` is forced to `integer`; a passing checkbox value is rendered through
`_from_bool_to_str(int(value))`, which cannot fail since the value is `"0"`
or `"1"` here. The emitted key uses the declared type. -/
def process_vt_param (temp_vts_dict : List (String × VtMeta)) (vtid : String)
    (vts_params : List (String × String)) (param : String × String) :
    List (String × String) :=
  let vt_param_id := param.1
  let vt_param_value := param.2
  let param_type := (get_vt_param_type temp_vts_dict vtid vt_param_id).getD ""
  let param_name := (get_vt_param_name temp_vts_dict vtid vt_param_id).getD ""
  if strEmpty param_type || strEmpty param_name then vts_params
  else
    let type_aux := if vt_param_id = "0" then "integer" else param_type
    if (check_param_type vt_param_value type_aux).isSome then vts_params
    else
      let value :=
        if type_aux = "checkbox" then
          from_bool_to_str ((pyInt vt_param_value).getD 0)
        else vt_param_value
      dictSet vts_params
        (vtid ++ ":" ++ vt_param_id ++ ":" ++ param_type ++ ":" ++ param_name)
        value

/-- The VT selection passed to `process_vts` after `vts.pop("vt_groups")`:
the popped group filters (`[]` models `None`/empty, both falsy) and the
remaining `(vtid, params)` items in dict order. -/
structure VtsSelection where
  vt_groups : List String := []
  entries : List (String × List (String × String)) := []

/-- `process_vts` (daemon.py lines 1211-1260): VTs absent from
`temp_vts_dict` are skipped whole; present VTs are appended to the id list
and their parameters folded through `process_vt_param` into the one shared
`vts_params` dict. -/
def process_vts (temp_vts_dict : List (String × VtMeta))
    (vts : VtsSelection) :
    Except Unit (List String × List (String × String)) := do
  let vts_list ←
    if vts.vt_groups.isEmpty then Except.ok ([] : List String)
    else get_vts_in_groups temp_vts_dict vts.vt_groups
  .ok (vts.entries.foldl
    (fun st entry =>
      let vtid := entry.1
      if (dictGet temp_vts_dict vtid).isNone then st
      else
        (st.1 ++ [vtid], entry.2.foldl (process_vt_param temp_vts_dict vtid) st.2))
    (vts_list, []))

/-! ### Result translator
`get_severity_score` (daemon.py lines 939-954) and the per-record body of
`get_openvas_result` (lines 956-1029). -/

/-- The severity descriptor of a VT: the two keys `get_severity_score`
reads from `vt_aux\x5b"severities"\x5d`. -/
structure Severities where
  severity_type : Option String := none
  severity_base_vector : Option String := none
deriving DecidableEq

/-- The slice of a VT record the result translator consults. -/
structure VtRecord where
  name : Option String := none
  qod_type : Option String := none
  qod : Option String := none
  severities : Severities := {}
deriving DecidableEq

/-- `get_severity_score` (daemon.py lines 939-954), parametric in the
external scorer. `cvss_base_v2_value` is modelled from the spec: the CVSS
computation lives in the external `ospd` library (out of scope, spec
section 1); per spec section 4.5 the score is "computed only when the
matched VT declares the supported scoring scheme and carries a vector", so
the scorer is a total function producing the base value. -/
def get_severity_score (cvss_base_v2_value : String → Float)
    (vt_aux : Option VtRecord) : Option Float :=
  match vt_aux with
  | none => none
  | some vt =>
    if vt.severities.severity_type = some "cvss_base_v2" ∧
        truthyOpt vt.severities.severity_base_vector then
      some (cvss_base_v2_value (pget vt.severities.severity_base_vector))
    else none

/-- `xml.sax.saxutils.escape`: ampersands first, then angle brackets. -/
def xml_escape (s : String) : String :=
  pyReplace (pyReplace (pyReplace s "&" "&amp;") "<" "&lt;") ">" "&gt;"

/-- The `rqod` resolution of `get_openvas_result` (daemon.py lines
968-974): a truthy `qod_type` is looked up in `nvti.QOD_TYPES` (a plain
`\x5b\x5d` access, so a missing key raises `KeyError`, modelled
`Except.error`); otherwise a truthy `qod` is used verbatim; otherwise the
initial empty string stands. -/
def resolve_qod (qod_types : List (String × String)) (vt_aux : Option VtRecord) :
    Except Unit String :=
  match vt_aux with
  | none => .ok ""
  | some vt =>
    if truthyOpt vt.qod_type then
      match dictGet qod_types (pget vt.qod_type) with
      | some q => .ok q
      | none => .error ()
    else if truthyOpt vt.qod then .ok (pget vt.qod)
    else .ok ""

/-- One structured event delivered to the reporting layer (one
`add_scan_error` / `add_scan_log` / `add_scan_host_detail` /
`add_scan_alarm` call); fields absent from a call keep their defaults. -/
structure ScanEvent where
  kind : String
  host : String := ""
  hostname : String := ""
  name : Option String := none
  value : String := ""
  port : String := ""
  test_id : String := ""
  severity : Option Float := none
  qod : String := ""

/-- The per-record body of the `get_openvas_result` loop (daemon.py lines
960-1025) applied to the already-split fields `msg` of one harvested
record (`res.split("|||")`); fewer than five fields raise `IndexError`.
`vts` is the per-scan VT snapshot, `qod_types` the `nvti.QOD_TYPES` table,
`cvss_base_v2_value` the external scorer. Returns the emitted events (the
four kind tests are independent `if`s; at most one can match). -/
def translate_result (vts : List (String × VtRecord))
    (qod_types : List (String × String)) (cvss_base_v2_value : String → Float)
    (current_host : String) (msg : List String) :
    Except Unit (List ScanEvent) :=
  if msg.length < 5 then .error ()
  else do
    let m0 := msg.getD 0 ""
    let m1 := msg.getD 1 ""
    let m2 := msg.getD 2 ""
    let m3 := msg.getD 3 ""
    let m4 := msg.getD 4 ""
    let roid := pyStrip m3
    let rhostname := if strEmpty m1 then "" else pyStrip m1
    let host_is_dead := hasSub m4 "Host dead"
    let vt_aux : Option VtRecord :=
      if !strEmpty roid && !host_is_dead then dictGet vts roid else none
    let rqod ←
      if !strEmpty roid && !host_is_dead then resolve_qod qod_types vt_aux
      else Except.ok ""
    let rname :=
      if !strEmpty roid && !host_is_dead then
        match vt_aux with
        | some vt => vt.name
        | none => some ""
      else some ""
    let rname := match rname with
      | some n => if strEmpty n then some n else some (xml_escape n)
      | none => none
    let errEv : List ScanEvent :=
      if m0 = "ERRMSG" then
        [{ kind := "ERRMSG", host := current_host, hostname := rhostname,
           name := rname, value := m4, port := m2 }]
      else []
    let logEv : List ScanEvent :=
      if m0 = "LOG" then
        [{ kind := "LOG", host := current_host, hostname := rhostname,
           name := rname, value := m4, port := m2, qod := rqod,
           test_id := roid }]
      else []
    let hdEv : List ScanEvent :=
      if m0 = "HOST_DETAIL" then
        [{ kind := "HOST_DETAIL", host := current_host, hostname := rhostname,
           name := rname, value := m4 }]
      else []
    let alarmEv : List ScanEvent :=
      if m0 = "ALARM" then
        [{ kind := "ALARM", host := current_host, hostname := rhostname,
           name := rname, value := m4, port := m2, test_id := roid,
           severity := get_severity_score cvss_base_v2_value vt_aux,
           qod := rqod }]
      else []
    .ok (errEv ++ logEv ++ hdEv ++ alarmEv)

/-! ### Scan orchestrator
The polling loop of `exec_scan` (daemon.py lines 1665-1706),
`target_is_finished` (lines 1051-1062), `scan_is_stopped` (lines
1064-1072), `stop_scan_cleanup` (lines 1074-1136) and the control-flow
skeleton of `exec_scan` (lines 1481-1709). -/

/-- One host sub-index as the loop observes it during a tick: its number in
`internal/dbindex`, its `internal/scan_id` back-reference, its host ip, and
whether its `internal/<openvas_scan_id>` key reads `finished`
(`host_is_finished`). -/
structure HostDb where
  idx : Nat
  scan_id : Option String := none
  host_ip : String := ""
  finished : Bool := false
deriving DecidableEq

/-- The store state one tick of the polling loop observes. The
`internal/<openvas_scan_id>` status key is read twice per tick — by
`scan_is_stopped` at the top and (lazily) by `target_is_finished` at the
bottom — and may change in between, hence two fields. -/
structure Tick where
  marker_at_stop_check : Option String := none
  marker_at_finish_check : Option String := none
  dbs : List HostDb := []
deriving DecidableEq

/-- `scan_is_stopped` (daemon.py lines 1064-1072) applied to the status
value it reads. -/
def scan_is_stopped_marker (m : Option String) : Bool :=
  m = some "stop_all"

/-- `target_is_finished` (daemon.py lines 1051-1062) applied to the status
value it reads: `finished` or absent. -/
def target_is_finished_marker (m : Option String) : Bool :=
  m = some "finished" || m.isNone

/-- How one polling loop run ended. -/
inductive LoopExit where
  | stopped
  | completed
deriving DecidableEq

/-- Outcome of the polling loop: how it exited, the host indices whose
back-reference matched and were therefore harvested (in order), and the
number of ticks it ran. -/
structure LoopResult where
  exit : LoopExit
  harvested : List Nat
  ticks_used : Nat
deriving DecidableEq

/-- The host indices of a tick that the loop body harvests: registered in
`internal/dbindex`, not the main index, and carrying the `internal/scan_id`
back-reference of this scan (daemon.py lines 1676-1701). An index
without a back-reference is skipped without touching `no_id_found`. -/
def tick_matches (openvas_scan_id : String) (main_kbindex : Nat) (t : Tick) :
    List Nat :=
  (t.dbs.filter fun d =>
    d.idx ≠ main_kbindex && d.scan_id = some openvas_scan_id).map (·.idx)

/-- The polling loop of `exec_scan` (daemon.py lines 1665-1706) over a
finite trace of observed ticks; `none` means the trace ended with the loop
still running. Per tick: the stop sentinel is checked first (return 1);
then the registered host indices are enumerated and the matching ones
harvested, clearing `no_id_found`; the loop breaks when `no_id_found`
survived the tick and `target_is_finished` holds; otherwise `no_id_found`
is set for the next tick. -/
def pollLoop (openvas_scan_id : String) (main_kbindex : Nat)
    (no_id_found : Bool) : List Tick → Option LoopResult
  | [] => none
  | t :: rest =>
    if scan_is_stopped_marker t.marker_at_stop_check then
      some ⟨.stopped, [], 1⟩
    else
      -- `no_id_found` is cleared when a host matched this tick, so its
      -- value at the break check is `matched.isEmpty && no_id_found`.
      if ((tick_matches openvas_scan_id main_kbindex t).isEmpty &&
            no_id_found) &&
          target_is_finished_marker t.marker_at_finish_check then
        some ⟨.completed, tick_matches openvas_scan_id main_kbindex t, 1⟩
      else
        match pollLoop openvas_scan_id main_kbindex true rest with
        | none => none
        | some r =>
          some ⟨r.exit,
            tick_matches openvas_scan_id main_kbindex t ++ r.harvested,
            r.ticks_used + 1⟩

/-- Environment of `stop_scan_cleanup` (daemon.py lines 1074-1136) for the
kb holding the `globalscanid` mapping of this scan (the main index):
whether `psutil.Process(ovas_pid)` initially succeeds, and whether
spawning the `openvas --scan-stop` command succeeds. -/
structure CleanupEnv where
  pid_observable : Bool := false
  stop_cmd_ok : Bool := true
deriving DecidableEq

/-- Whether `stop_scan_cleanup` reaches `release_db` for the main index:
it does unless the engine pid was still observable and the stop-command
spawn raised `OSError`, in which case the function returns `False` before
releasing (daemon.py lines 1107-1130). -/
def stop_scan_cleanup_releases_main (e : CleanupEnv) : Bool :=
  !(e.pid_observable && !e.stop_cmd_ok)

/-- Outcome of the wait-for-spawn loop of `exec_scan` (daemon.py lines
1649-1663): the engine flipped the sentinel away from `new`; or `poll()`
reported a negative exit status; or neither ever happened (the loop spins
forever). -/
inductive SpawnResult where
  | accepted
  | exitedNegative
  | hangs
deriving DecidableEq

/-- Python return value of `exec_scan`, plus a `diverged` marker for runs
whose modelled trace never ends (spin in the wait loop or trace exhausted
in the polling loop). -/
inductive ExecRet where
  | retTwo    -- return 2
  | retFalse  -- return False
  | retOne    -- return 1
  | retNone   -- fall off the end
  | diverged
deriving DecidableEq

/-- What `exec_scan` did: its return value, whether the main kb index was
allocated (`kb_new`), and whether `release_db(main_kbindex)` ran before the
return (either directly or inside the `stop_scan_cleanup` call of the
spawn-failure branch). -/
structure ExecOutcome where
  ret : ExecRet
  main_allocated : Bool
  main_released : Bool
deriving DecidableEq

/-- Environment of one `exec_scan` run (the values its collaborator calls
return). -/
structure ExecEnv where
  pending_feed : Bool := false
  ports : String := "default"      -- get_scan_ports; "" models falsy
  credentials : List (String × CredParams) := []
  vts_empty : Bool := false        -- get_scan_vts(scan_id) == ""
  popen_ok : Bool := true          -- subprocess.Popen raised no OSError
  spawn : SpawnResult := .accepted
  cleanup : CleanupEnv := {}
  openvas_scan_id : String := "ov"
  main_kbindex : Nat := 1
  ticks : List Tick := []

/-- Control-flow skeleton of `exec_scan` (daemon.py lines 1481-1709),
tracking the return value and the release of the main kb index. The
preference lines written into the store (options, target, port range,
credentials, plugin set, VT parameters) do not influence control flow and
are not tracked here; the two `do_not_launch` sources are the credential
check (lines 1576-1587, via `malformed_credential_signaled`) and the empty
VT selection (lines 1594-1625). On the stop-sentinel exit (line 1669-1670)
`exec_scan` itself returns 1 without releasing; the release is performed by
the concurrently running `stop_scan_cleanup` in the stop-request handler,
outside this function. -/
def exec_scan (env : ExecEnv) : ExecOutcome :=
  if env.pending_feed then ⟨.retTwo, false, false⟩
  else if strEmpty env.ports then ⟨.retTwo, false, false⟩
  else
    -- kb_new: the main index is allocated from here on.
    let do_not_launch :=
      malformed_credential_signaled env.credentials || env.vts_empty
    if do_not_launch then ⟨.retTwo, true, true⟩
    else if !env.popen_ok then ⟨.retFalse, true, false⟩
    else
      match env.spawn with
      | .hangs => ⟨.diverged, true, false⟩
      | .exitedNegative =>
        ⟨.retOne, true, stop_scan_cleanup_releases_main env.cleanup⟩
      | .accepted =>
        match pollLoop env.openvas_scan_id env.main_kbindex false env.ticks with
        | none => ⟨.diverged, true, false⟩
        | some r =>
          match r.exit with
          | .stopped => ⟨.retOne, true, false⟩
          | .completed => ⟨.retNone, true, true⟩

/-- The exclude-hosts merge of `exec_scan` (daemon.py lines 1525-1539):
the final `options\x5b"exclude_hosts"\x5d` value. `exclude_hosts` is the
explicit exclusion string (`""` models falsy), `finished_hosts` the hosts
already finished in a prior attempt; `none` means the option is never
set. -/
def compiled_exclude_hosts (exclude_hosts : String)
    (finished_hosts : List String) : Option String :=
  if !finished_hosts.isEmpty then
    if !strEmpty exclude_hosts then
      some (exclude_hosts ++ "," ++ pyJoin "," finished_hosts)
    else some (pyJoin "," finished_hosts)
  else if !strEmpty exclude_hosts then some exclude_hosts
  else none

/-! ## Theorems -/

/-! ### C3: the alive-test bit table -/

/-- Claim-side bit table (spec sections 4.2 and 8), written from the claim
wording: "Do a TCP ping" yes iff the TCP-ACK or TCP-SYN bit is set; "tries
also TCP-SYN" yes iff both; "tries only TCP-SYN" yes iff SYN and not ACK;
ICMP and ARP lines yes iff their bits; "Mark unreachable Hosts as dead" no
iff the consider-alive bit; plus the forced TCP-ping line exactly when the
mask is the consider-alive bit (8) alone. The line keys are the ones the
engine consumes (including the source spelling "unrechable"). -/
def alive_test_table (n : Int) : List String :=
  let ack := n.toNat.testBit 0
  let icmp := n.toNat.testBit 1
  let arp := n.toNat.testBit 2
  let calive := n.toNat.testBit 3
  let syn := n.toNat.testBit 4
  let yn : Bool → String := fun b => if b then "yes" else "no"
  [OID_PING_HOST ++ ":1:checkbox:Do a TCP ping|||" ++ yn (ack || syn),
   OID_PING_HOST ++ ":2:checkbox:TCP ping tries also TCP-SYN ping|||" ++
     yn (ack && syn),
   OID_PING_HOST ++ ":7:checkbox:TCP ping tries only TCP-SYN ping|||" ++
     yn (syn && !ack),
   OID_PING_HOST ++ ":3:checkbox:Do an ICMP ping|||" ++ yn icmp,
   OID_PING_HOST ++ ":4:checkbox:Use ARP|||" ++ yn arp,
   OID_PING_HOST ++ ":5:checkbox:Mark unrechable Hosts as dead (not scanning)|||" ++
     yn (!calive)] ++
  (if n = 8 then [OID_PING_HOST ++ ":1:checkbox:Do a TCP ping|||yes"] else [])

/-- C3: for every alive-test bitmask in `[1, 31]`,
`build_alive_test_opt_as_prefs` emits exactly the six boolean preference
lines of the bit table, plus the forced "Do a TCP ping|||yes" line exactly
when the mask equals the consider-alive bit alone; every mask below 1 or
above 31 yields no lines at all. -/
theorem alive_test_prefs_match_bit_table :
    (∀ n : Int, 1 ≤ n → n ≤ 31 →
      build_alive_test_opt_as_prefs [("alive_test", toString n)] =
        alive_test_table n) ∧
    (∀ n : Int, n < 1 ∨ n > 31 → alive_test_prefs_of_int n = []) := by
  constructor
  · intro n h1 h31
    interval_cases n <;> rfl
  · intro n h
    unfold alive_test_prefs_of_int
    rw [if_pos h]

/-- Witness for C3 at masks 8 (in range) and 0 (out of range). -/
theorem alive_test_prefs_match_bit_table_witness :
    build_alive_test_opt_as_prefs [("alive_test", toString (8 : Int))] =
      alive_test_table 8 ∧ alive_test_prefs_of_int 0 = [] :=
  ⟨alive_test_prefs_match_bit_table.1 8 (by norm_num) (by norm_num),
   alive_test_prefs_match_bit_table.2 0 (Or.inl (by norm_num))⟩

/-! ### C1: malformed credentials -/

/-- The per-service line block is empty exactly for unrecognized service
names; a recognized service always contributes lines, whatever the
sub-fields hold. -/
theorem service_cred_lines_eq_nil (p : CredParams) (s : String) :
    service_cred_lines p s = [] ↔ recognized_service s = false := by
  unfold service_cred_lines recognized_service
  by_cases h1 : s = "ssh" <;> by_cases h2 : s = "smb" <;>
    by_cases h3 : s = "esxi" <;> by_cases h4 : s = "snmp" <;>
    simp [h1, h2, h3, h4]

/-- C1 counterexample: the credentials map whose single entry is the
recognized service "ssh" with every sub-field missing. The compiler does
not signal failure (the "Malformed credential" branch of exec_scan is not
taken) and instead emits the full four-line set for the service with empty
values — against the claim, which requires a failure signal and no lines. -/
theorem missing_subfield_not_signaled :
    malformed_credential_signaled [("ssh", {})] = false ∧
    build_credentials_as_prefs [("ssh", {})] =
      ["auth_port_ssh|||",
       OID_SSH_AUTH ++ ":1:entry:SSH login name:|||",
       OID_SSH_AUTH ++ ":2:password:SSH key passphrase:|||",
       OID_SSH_AUTH ++ ":4:file:SSH private key:|||"] := by
  constructor <;> decide

/-- C1 amended: the credential expansion signals failure (scan error plus
`do_not_launch`) exactly when the credentials map is non-empty yet contains
no recognized service (ssh, smb, esxi, snmp); a recognized entry with
missing sub-fields does not signal and contributes its full fixed line set
with empty strings substituted, never a partial one. -/
theorem malformed_credential_signal_iff
    (credentials : List (String × CredParams)) :
    malformed_credential_signaled credentials =
      (!credentials.isEmpty &&
        credentials.all fun c => !recognized_service c.1) := by
  unfold malformed_credential_signaled build_credentials_as_prefs
  congr 1
  rw [Bool.eq_iff_iff]
  simp only [List.isEmpty_iff, List.flatten_eq_nil_iff, List.mem_map,
    List.all_eq_true, Bool.not_eq_true', forall_exists_index]
  constructor
  · intro h c hc
    exact (service_cred_lines_eq_nil _ _).1 (h _ c ⟨hc, rfl⟩)
  · rintro h x c ⟨hc, rfl⟩
    exact (service_cred_lines_eq_nil _ _).2 (h c hc)

/-! ### C6: ssh credential slots -/

/-- C6: for a credentials map with the single service "ssh", credential
type "up" yields exactly the three lines auth port, SSH login name (slot 1)
and SSH password (slot 3) — never the key-passphrase (slot 2) or
private-key (slot 4) lines; any other type yields the auth port, login
name, key-passphrase and private-key lines — never the plain password
line (slot 3). -/
theorem ssh_credential_lines (p : CredParams) :
    (pget p.type = "up" →
      build_credentials_as_prefs [("ssh", p)] =
        ["auth_port_ssh|||" ++ pget p.port,
         OID_SSH_AUTH ++ ":1:" ++ "entry:SSH login " ++ "name:|||" ++
           pget p.username,
         OID_SSH_AUTH ++ ":3:" ++ "password:SSH password " ++ "(unsafe!):|||" ++
           pget p.password]) ∧
    (pget p.type ≠ "up" →
      build_credentials_as_prefs [("ssh", p)] =
        ["auth_port_ssh|||" ++ pget p.port,
         OID_SSH_AUTH ++ ":1:" ++ "entry:SSH login " ++ "name:|||" ++
           pget p.username,
         OID_SSH_AUTH ++ ":2:" ++ "password:SSH key passphrase:|||" ++
           pget p.password,
         OID_SSH_AUTH ++ ":4:" ++ "file:SSH private key:|||" ++
           pget p.privatekey]) := by
  constructor <;> intro h <;>
    simp [build_credentials_as_prefs, service_cred_lines, dictGet, h]

/-- Witness for C6 on both branches: a type-"up" entry and a key-based
entry with concrete sub-fields. -/
theorem ssh_credential_lines_witness :
    (build_credentials_as_prefs
        [("ssh", { type := some "up", username := some "u",
                   password := some "pw", port := some "22" })] =
      ["auth_port_ssh|||" ++ "22",
       OID_SSH_AUTH ++ ":1:" ++ "entry:SSH login " ++ "name:|||" ++ "u",
       OID_SSH_AUTH ++ ":3:" ++ "password:SSH password " ++ "(unsafe!):|||" ++
         "pw"]) ∧
    (build_credentials_as_prefs
        [("ssh", { type := some "usk", username := some "u",
                   password := some "pp", privatekey := some "k" })] =
      ["auth_port_ssh|||" ++ "",
       OID_SSH_AUTH ++ ":1:" ++ "entry:SSH login " ++ "name:|||" ++ "u",
       OID_SSH_AUTH ++ ":2:" ++ "password:SSH key passphrase:|||" ++ "pp",
       OID_SSH_AUTH ++ ":4:" ++ "file:SSH private key:|||" ++ "k"]) :=
  ⟨(ssh_credential_lines _).1 (by decide),
   (ssh_credential_lines _).2 (by decide)⟩

/-! ### C5 and C10: feed staleness -/

/-- C5: `feed_is_outdated` returns True for cached version "0" against an
on-disk marker of 5, False for cached "10" against 5, and None when the
marker file is absent — in which case the first step of `check_feed` sets
the process-wide pending flag. -/
theorem feed_is_outdated_examples :
    feed_is_outdated (some "/var/lib/openvas/plugins")
        (some ["PLUGIN_SET = \"5\";\n"]) "0" = .ok (some true) ∧
    feed_is_outdated (some "/var/lib/openvas/plugins")
        (some ["PLUGIN_SET = \"5\";\n"]) "10" = .ok (some false) ∧
    feed_is_outdated (some "/var/lib/openvas/plugins") none "10" = .ok none ∧
    check_feed_sets_pending (some "/var/lib/openvas/plugins") none "10" =
      .ok true := by
  refine ⟨?_, ?_, ?_, ?_⟩ <;> rfl

/-- C10: when the marker file exists but holds no PLUGIN_SET assignment,
the parsed on-disk version stays 0 and `feed_is_outdated` returns True no
matter how large the cached version is — unlike an absent marker file,
which yields None. -/
theorem feed_no_plugin_set_is_outdated (pf : String) (lines : List String)
    (current_feed : String) (k : Int) (hpf : strEmpty pf = false)
    (hl : plugin_set_date lines = .ok none)
    (hcf : pyInt current_feed = some k) :
    feed_is_outdated (some pf) (some lines) current_feed = .ok (some true) ∧
    feed_is_outdated (some pf) none current_feed = .ok none := by
  constructor <;>
    simp [feed_is_outdated, hpf, hl, hcf, date_int, bind, Except.bind]

/-- Witness for C10: marker file without any PLUGIN_SET line, cached
version 999999. -/
theorem feed_no_plugin_set_is_outdated_witness :
    feed_is_outdated (some "/p") (some ["# no assignment\n"]) "999999" =
      .ok (some true) ∧
    feed_is_outdated (some "/p") none "999999" = .ok none :=
  feed_no_plugin_set_is_outdated "/p" ["# no assignment\n"] "999999" 999999
    (by decide) rfl (by decide)

/-! ### C7: resumed-scan exclude merging -/

/-- C7: with truthy explicit excludes and a non-empty finished-host list,
the compiled `exclude_hosts` preference is the explicit exclusions followed
by a comma and the comma-joined finished hosts. -/
theorem exclude_hosts_merge (eh : String) (fh : List String)
    (h1 : strEmpty eh = false) (h2 : fh ≠ []) :
    compiled_exclude_hosts eh fh = some (eh ++ "," ++ pyJoin "," fh) := by
  cases fh with
  | nil => exact absurd rfl h2
  | cons a l => simp [compiled_exclude_hosts, h1]

/-- Witness for C7: the spec example — excludes "10.0.0.1", finished hosts
\x5b"10.0.0.2", "10.0.0.3"\x5d compile to "10.0.0.1,10.0.0.2,10.0.0.3". -/
theorem exclude_hosts_merge_witness :
    compiled_exclude_hosts "10.0.0.1" ["10.0.0.2", "10.0.0.3"] =
      some "10.0.0.1,10.0.0.2,10.0.0.3" :=
  (exclude_hosts_merge "10.0.0.1" ["10.0.0.2", "10.0.0.3"] (by decide)
    (by decide)).trans (by decide)

/-! ### C4: checkbox VT parameters -/

/-- C4: for a VT parameter whose effective type is checkbox (declared
checkbox, id not "0"), `process_vts` compiles value "1" to "yes" and "0"
to "no" under the parameter key; any other literal leaves the shared
parameter dict untouched, and inside `process_vts` the VT with that
parameter dropped compiles exactly as if the parameter were absent — the
remaining parameters and the VT list are unaffected. -/
theorem checkbox_param_compilation
    (temp_vts_dict : List (String × VtMeta)) (vtid pid pname : String)
    (meta : VtMeta)
    (hvt : dictGet temp_vts_dict vtid = some meta)
    (hp : dictGet meta.vt_params pid = some ⟨"checkbox", pname⟩)
    (hid : pid ≠ "0") (hname : strEmpty pname = false) :
    (∀ acc, process_vt_param temp_vts_dict vtid acc (pid, "1") =
      dictSet acc (vtid ++ ":" ++ pid ++ ":" ++ "checkbox" ++ ":" ++ pname)
        "yes") ∧
    (∀ acc, process_vt_param temp_vts_dict vtid acc (pid, "0") =
      dictSet acc (vtid ++ ":" ++ pid ++ ":" ++ "checkbox" ++ ":" ++ pname)
        "no") ∧
    (∀ v, v ≠ "0" → v ≠ "1" →
      (∀ acc, process_vt_param temp_vts_dict vtid acc (pid, v) = acc) ∧
      ∀ ps₁ ps₂,
        process_vts temp_vts_dict ⟨[], [(vtid, ps₁ ++ (pid, v) :: ps₂)]⟩ =
        process_vts temp_vts_dict ⟨[], [(vtid, ps₁ ++ ps₂)]⟩) := by
  have htype : get_vt_param_type temp_vts_dict vtid pid = some "checkbox" := by
    simp [get_vt_param_type, hvt, hp]
  have hname2 : get_vt_param_name temp_vts_dict vtid pid = some pname := by
    simp [get_vt_param_name, hvt, hp]
  have hcb : strEmpty "checkbox" = false := by decide
  have hyes : from_bool_to_str ((pyInt "1").getD 0) = "yes" := by decide
  have hno : from_bool_to_str ((pyInt "0").getD 0) = "no" := by decide
  have hskip : ∀ v, v ≠ "0" → v ≠ "1" → ∀ acc,
      process_vt_param temp_vts_dict vtid acc (pid, v) = acc := by
    intro v hv0 hv1 acc
    simp [process_vt_param, htype, hname2, hcb, hname, hid, check_param_type,
      hv0, hv1]
  refine ⟨?_, ?_, ?_⟩
  · intro acc
    simp [process_vt_param, htype, hname2, hcb, hname, hid, check_param_type,
      hyes]
  · intro acc
    simp [process_vt_param, htype, hname2, hcb, hname, hid, check_param_type,
      hno]
  · intro v hv0 hv1
    refine ⟨hskip v hv0 hv1, fun ps₁ ps₂ => ?_⟩
    simp [process_vts, hvt, bind, Except.bind, List.foldl_append,
      hskip v hv0 hv1]

/-- A small VT catalog snapshot for the C4 witness. -/
def vts_dict_example : List (String × VtMeta) :=
  [("oid42", { vt_params := [("2", ⟨"checkbox", "Enable"⟩),
                             ("3", ⟨"entry", "Text"⟩)] })]

/-- Witness for C4 on the example catalog: value "1" compiles to "yes",
"0" to "no", "2" is dropped and the VT compiles exactly as without it. -/
theorem checkbox_param_compilation_witness :
    process_vt_param vts_dict_example "oid42" [] ("2", "1") =
      dictSet [] ("oid42" ++ ":" ++ "2" ++ ":" ++ "checkbox" ++ ":" ++ "Enable")
        "yes" ∧
    process_vt_param vts_dict_example "oid42" [] ("2", "0") =
      dictSet [] ("oid42" ++ ":" ++ "2" ++ ":" ++ "checkbox" ++ ":" ++ "Enable")
        "no" ∧
    process_vt_param vts_dict_example "oid42" [] ("2", "2") = [] ∧
    process_vts vts_dict_example
        ⟨[], [("oid42", [("3", "a")] ++ ("2", "2") :: [])]⟩ =
      process_vts vts_dict_example ⟨[], [("oid42", [("3", "a")] ++ [])]⟩ := by
  obtain ⟨h1, h2, h3⟩ :=
    checkbox_param_compilation vts_dict_example "oid42" "2" "Enable"
      { vt_params := [("2", ⟨"checkbox", "Enable"⟩), ("3", ⟨"entry", "Text"⟩)] }
      rfl rfl (by decide) (by decide)
  exact ⟨h1 [], h2 [], (h3 "2" (by decide) (by decide)).1 [],
    (h3 "2" (by decide) (by decide)).2 [("3", "a")] []⟩

/-! ### C8: alarm severity -/

/-- C8: a harvested ALARM record that matches a VT (non-empty stripped oid,
no "Host dead" marker, VT found in the snapshot; the qod lookup
resolvable) yields exactly one alarm event, and that event carries a
non-null numeric severity exactly when the severity descriptor of the
matched VT has type "cvss_base_v2" and a truthy severity_base_vector —
for any external scorer. -/
theorem alarm_severity_iff (vts : List (String × VtRecord))
    (qod_types : List (String × String)) (cvss : String → Float)
    (host hn port oid msgv : String) (vt : VtRecord)
    (hoid : strEmpty (pyStrip oid) = false)
    (hdead : hasSub msgv "Host dead" = false)
    (hvt : dictGet vts (pyStrip oid) = some vt)
    (hqod : truthyOpt vt.qod_type = true →
      (dictGet qod_types (pget vt.qod_type)).isSome = true) :
    ∃ ev, translate_result vts qod_types cvss host
        ["ALARM", hn, port, oid, msgv] = .ok [ev] ∧
      (ev.severity.isSome = true ↔
        vt.severities.severity_type = some "cvss_base_v2" ∧
          truthyOpt vt.severities.severity_base_vector = true) := by
  have hq : ∃ q, resolve_qod qod_types (some vt) = .ok q := by
    unfold resolve_qod
    by_cases h1 : truthyOpt vt.qod_type = true
    · obtain ⟨q, hq2⟩ := Option.isSome_iff_exists.mp (hqod h1)
      exact ⟨q, by simp [h1, hq2]⟩
    · by_cases h2 : truthyOpt vt.qod = true
      · exact ⟨pget vt.qod, by simp [h1, h2]⟩
      · exact ⟨"", by simp [h1, h2]⟩
  obtain ⟨q, hq⟩ := hq
  have hsev : ∀ o : Option Float, o = get_severity_score cvss (some vt) →
      (o.isSome = true ↔
        vt.severities.severity_type = some "cvss_base_v2" ∧
          truthyOpt vt.severities.severity_base_vector = true) := by
    intro o ho
    subst ho
    by_cases hc : vt.severities.severity_type = some "cvss_base_v2" ∧
        truthyOpt vt.severities.severity_base_vector = true
    · simp [get_severity_score, hc]
    · constructor
      · intro hsome
        by_contra hc2
        rw [get_severity_score, if_neg (by simpa using hc2)] at hsome
        exact Bool.false_ne_true hsome
      · intro h2
        exact absurd h2 hc
  refine ⟨{ kind := "ALARM", host := host,
            hostname := if strEmpty hn then "" else pyStrip hn,
            name := match vt.name with
              | some n => if strEmpty n then some n else some (xml_escape n)
              | none => none,
            value := msgv, port := port, test_id := pyStrip oid,
            severity := get_severity_score cvss (some vt), qod := q },
          ?_, hsev _ rfl⟩
  simp [translate_result, hoid, hdead, hvt, hq, bind, Except.bind]

/-- The VT of the C8 witness: a supported severity descriptor with a
non-empty vector. -/
def vt_sev_example : VtRecord :=
  { severities := { severity_type := some "cvss_base_v2",
                    severity_base_vector := some "AV:N/AC:L/Au:N/C:N/I:N/A:C" } }

/-- Catalog for the C8 witness. -/
def vts_sev_example : List (String × VtRecord) :=
  [("1.2.3", vt_sev_example)]

/-- Witness for C8: a concrete ALARM record matched against
`vts_sev_example` under the constant-zero scorer. -/
theorem alarm_severity_iff_witness :
    ∃ ev, translate_result vts_sev_example [] (fun _ => (0 : Float)) "h"
        ["ALARM", "hn", "22", "1.2.3", "boom"] = .ok [ev] ∧
      (ev.severity.isSome = true ↔
        vt_sev_example.severities.severity_type = some "cvss_base_v2" ∧
          truthyOpt vt_sev_example.severities.severity_base_vector = true) :=
  alarm_severity_iff vts_sev_example [] (fun _ => (0 : Float)) "h" "hn" "22"
    "1.2.3" "boom" vt_sev_example (by decide) (by decide) rfl (by decide)

/-! ### C9: polling loop termination -/

/-- A host-free tick whose status key reads "ready" at both reads. -/
def tick_ready : Tick :=
  { marker_at_stop_check := some "ready",
    marker_at_finish_check := some "ready" }

/-- A host-free tick whose status key reads "finished" at both reads. -/
def tick_finished : Tick :=
  { marker_at_stop_check := some "finished",
    marker_at_finish_check := some "finished" }

/-- C9 counterexample: on the trace ready, ready, finished — no host index
ever registered — the loop completes at tick 3, although the completion
marker read "finished" on the final tick only: on no two consecutive ticks
did the marker read finished or absent (it read "ready" on ticks 1 and 2),
refuting the claimed "only when on two consecutive ticks ... the main
completion marker read finished or was absent". -/
theorem poll_loop_completes_after_single_finished_read :
    pollLoop "ov" 1 false [tick_ready, tick_ready, tick_finished] =
      some ⟨.completed, [], 3⟩ ∧
    target_is_finished_marker tick_ready.marker_at_finish_check = false := by
  constructor <;> rfl

/-- C9 amended: (a) a scan with no host sub-index ever registered and a
completion marker reading finished (or absent) ends the loop at its second
tick with no host harvested; (b) the loop completes only at a tick that
found no host index carrying the back-reference of this scan and whose
completion-marker read (at that tick alone) was finished or absent, and
never at the first tick when the loop was entered with the no-new-host
flag clear. -/
theorem poll_loop_termination (ov : String) (main : Nat) :
    (∀ (m : Option String) (n : Nat), target_is_finished_marker m = true →
      2 ≤ n →
      pollLoop ov main false
        (List.replicate n
          { marker_at_stop_check := m, marker_at_finish_check := m,
            dbs := [] }) =
        some ⟨.completed, [], 2⟩) ∧
    (∀ (ticks : List Tick) (b : Bool) (r : LoopResult),
      pollLoop ov main b ticks = some r → r.exit = .completed →
      1 ≤ r.ticks_used ∧
      ∃ tlast, ticks[r.ticks_used - 1]? = some tlast ∧
        (tick_matches ov main tlast).isEmpty = true ∧
        target_is_finished_marker tlast.marker_at_finish_check = true ∧
        (b = false → 2 ≤ r.ticks_used)) := by
  constructor
  · intro m n hm hn
    have hstop : scan_is_stopped_marker m = false := by
      rcases m with _ | s
      · rfl
      · simp only [target_is_finished_marker, Option.isNone_some,
          Bool.or_false, decide_eq_true_eq, Option.some.injEq] at hm
        simp [scan_is_stopped_marker, hm]
    obtain ⟨k, rfl⟩ : ∃ k, n = k + 2 := ⟨n - 2, by omega⟩
    rw [show k + 2 = (k + 1) + 1 by omega, List.replicate_succ,
      List.replicate_succ]
    simp [pollLoop, tick_matches, hstop, hm]
  · intro ticks
    induction ticks with
    | nil => intro b r hr _; simp [pollLoop] at hr
    | cons t rest ih =>
      intro b r hr hexit
      rw [pollLoop] at hr
      by_cases hstop : scan_is_stopped_marker t.marker_at_stop_check = true
      · rw [if_pos hstop] at hr
        cases hr
        simp at hexit
      · rw [if_neg hstop] at hr
        by_cases hbreak :
            (((tick_matches ov main t).isEmpty && b) &&
              target_is_finished_marker t.marker_at_finish_check) = true
        · rw [if_pos hbreak] at hr
          cases hr
          obtain ⟨⟨hempty, hb⟩, hfin⟩ := by
            simpa [Bool.and_eq_true] using hbreak
          exact ⟨Nat.le_refl 1, t, by simp, by simp [hempty], hfin,
            fun hbf => by rw [hbf] at hb; cases hb⟩
        · rw [if_neg hbreak] at hr
          cases hrec : pollLoop ov main true rest with
          | none => rw [hrec] at hr; cases hr
          | some r₂ =>
            rw [hrec] at hr
            cases hr
            obtain ⟨h1, tlast, hget, hempty, hfin, _⟩ :=
              ih true r₂ hrec (by simpa using hexit)
            refine ⟨by simp, tlast, ?_, hempty, hfin, fun _ => by simp; omega⟩
            obtain ⟨u, hu⟩ : ∃ u, r₂.ticks_used = u + 1 :=
              ⟨r₂.ticks_used - 1, by omega⟩
            rw [hu] at hget ⊢
            simpa [Nat.add_sub_cancel] using hget

/-- Witness for C9 amended: part (a) at the two-tick finished trace, part
(b) at the run part (a) produces. -/
theorem poll_loop_termination_witness :
    pollLoop "ov" 1 false (List.replicate 2 tick_finished) =
      some ⟨.completed, [], 2⟩ ∧
    (1 ≤ (2 : Nat) ∧ ∃ tlast,
      (List.replicate 2 tick_finished)[2 - 1]? = some tlast ∧
      (tick_matches "ov" 1 tlast).isEmpty = true ∧
      target_is_finished_marker tlast.marker_at_finish_check = true ∧
      (false = false → 2 ≤ 2)) := by
  have ha := (poll_loop_termination "ov" 1).1 (some "finished") 2 (by decide)
    (by norm_num)
  exact ⟨ha,
    (poll_loop_termination "ov" 1).2 (List.replicate 2 tick_finished) false
      ⟨.completed, [], 2⟩ ha rfl⟩

/-! ### C2: main-index release on exit branches -/

/-- The exec_scan environment in which the engine process cannot be
created: `subprocess.Popen` raises `OSError` (daemon.py lines 1639-1643). -/
def env_popen_failure : ExecEnv := { popen_ok := false }

/-- C2: at the spawn-creation-failure environment, exec_scan returns False
with the main index allocated but never released — unlike the adjacent
negative-exit spawn failure and the normal-completion branch, both of
which do release it. -/
theorem exec_scan_popen_failure_leaks_main_index :
    exec_scan env_popen_failure =
      { ret := .retFalse, main_allocated := true, main_released := false } ∧
    exec_scan { env_popen_failure with
        popen_ok := true, spawn := .exitedNegative } =
      { ret := .retOne, main_allocated := true, main_released := true } ∧
    exec_scan { env_popen_failure with
        popen_ok := true, ticks := [tick_finished, tick_finished] } =
      { ret := .retNone, main_allocated := true, main_released := true } := by
  refine ⟨rfl, rfl, rfl⟩

end OspdOpenvas
